import Mathlib

/-!
# TopNet topology compiler — verification development

Shallow embedding of the TopNet topology compiler core and its frontend
utilities, with theorems settling the specified properties.

Sources embedded here:
* `frontend/src/types/topology.ts` — the shared Graph IR data model;
* `frontend/src/utils/graphConverter.ts` — React Flow edge conversion;
* `frontend/src/utils/userDataGenerator.ts` — node-reference resolution,
  name sanitization and base64 user-data encoding;
* the topology builder, validation passes and Terraform generator of the
  backend, which are not shipped in this source tree: those are modelled
  from the specification (each such definition carries a
  `Modelled from the spec:` doc comment).
-/

namespace TopNet

/-! ## Graph IR data model (from `frontend/src/types/topology.ts`) -/

/-- `Provider` from `topology.ts`: `"aws" | "azure" | "gcp" | "generic"`. -/
inductive Provider where
  | aws
  | azure
  | gcp
  | generic
  deriving DecidableEq, Repr

/-- `NodeKind` from `topology.ts`. -/
inductive NodeKind where
  | network
  | subnet
  | security_group
  | load_balancer
  | compute_instance
  | database
  | gateway
  | traffic_generator
  | route_table
  deriving DecidableEq, Repr

/-- `EdgeKind` from `topology.ts`. -/
inductive EdgeKind where
  | attached_to
  | routes_to
  | allowed_traffic
  | depends_on
  | contains
  deriving DecidableEq, Repr

/-- `BaseNode` from `topology.ts`.  The open `props: Record<string, any>`
bag is embedded as an association list of string keys to string values
(the values the core reads — CIDR blocks, gateway types, ports — are all
strings or stringly-renderable scalars). -/
structure BaseNode where
  id : String
  kind : NodeKind
  name : Option String := none
  provider : Option Provider := none
  region : Option String := none
  az : Option String := none
  tags : List (String × String) := []
  props : List (String × String) := []
  deriving DecidableEq, Repr

/-- `Edge` from `topology.ts`: a directed, typed relationship between two
node ids. -/
structure Edge where
  id : String
  kind : EdgeKind
  «from» : String
  «to» : String
  props : List (String × String) := []
  deriving DecidableEq, Repr

/-- `TopologyGraph` from `topology.ts`. -/
structure TopologyGraph where
  id : String
  name : Option String := none
  nodes : List BaseNode
  edges : List Edge
  deriving DecidableEq, Repr

/-- `Severity` from `topology.ts`. -/
inductive Severity where
  | info
  | warning
  | error
  deriving DecidableEq, Repr

/-- `ValidationResult` from `topology.ts`. -/
structure ValidationResult where
  id : String
  severity : Severity
  message : String
  nodeIds : Option (List String) := none
  deriving DecidableEq, Repr

/-! ## React Flow conversion (from `frontend/src/utils/graphConverter.ts`) -/

/-- The stroke styling selected from `EDGE_STYLES` in `graphConverter.ts`. -/
structure EdgeStyle where
  stroke : String
  strokeDasharray : Option String := none
  deriving DecidableEq, Repr

/-- `EDGE_STYLES` lookup in `graphConverter.ts`; every `EdgeKind` is a key
of the record, so the `|| { stroke: '#9CA3AF' }` fallback is unreachable
for well-typed edges. -/
def edgeStyleFor : EdgeKind → EdgeStyle
  | .attached_to => { stroke := "#6B7280" }
  | .routes_to => { stroke := "#10B981", strokeDasharray := some "5,5" }
  | .allowed_traffic => { stroke := "#F59E0B" }
  | .depends_on => { stroke := "#EF4444", strokeDasharray := some "3,3" }
  | .contains => { stroke := "#8B5CF6" }

/-- The React Flow `Edge` object literal built by
`convertToReactFlowEdges` (the fields the converter sets). -/
structure ReactFlowEdge where
  id : String
  source : String
  target : String
  type : String
  animated : Bool
  stroke : String
  strokeWidth : Nat
  strokeDasharray : Option String
  label : Option String
  deriving DecidableEq, Repr

/-- `convertToReactFlowEdges` from `graphConverter.ts`: maps every
topology edge to a React Flow edge. -/
def convertToReactFlowEdges (topology : TopologyGraph) : List ReactFlowEdge :=
  topology.edges.map (fun edge =>
    let style := edgeStyleFor edge.kind
    { id := edge.id
      source := edge.«from»
      target := edge.«to»
      type := "smoothstep"
      animated := edge.kind = .allowed_traffic
      stroke := style.stroke
      strokeWidth := 2
      strokeDasharray := style.strokeDasharray
      label := if edge.kind = .allowed_traffic then some "→" else none })

/-! ## Reference resolution (from `frontend/src/utils/userDataGenerator.ts`) -/

/-- The name-sanitization transform used for Terraform resource names:
`node.id.replace("-", "_")` (global, regex literal in the TS source) in
`resolveNodeReferences` (line 106), the same transform as the backend's
`_sanitize_name`.  Replacing the single character `-` globally is a
character-wise map. -/
def sanitizeName (id : String) : String :=
  String.mk (id.toList.map (fun c => if c = '-' then '_' else c))

/-- The node lookup in `resolveNodeReferences`:
`nodes.find(n => n.name === nodeRef || n.id === nodeRef)`. -/
def findNode (nodes : List BaseNode) (nodeRef : String) : Option BaseNode :=
  nodes.find? (fun n => n.name == some nodeRef || n.id == nodeRef)

/-- The replacer callback of `resolveNodeReferences`: given the two
capture groups `nodeRef` and `property` of one `\x7b\x7bref.prop\x7d\x7d`
occurrence, produce the replacement text.  Mirrors lines 85–137 of
`userDataGenerator.ts`: unknown node → `$\x7bref.prop\x7d` placeholder;
resolved outputs (preview) take precedence; otherwise the kind/property
switch renders a Terraform interpolation; final fallback
`$\x7b<sanitized>.prop\x7d`. -/
def replaceMatch (nodes : List BaseNode)
    (resolvedOutputs : Option (List (String × List (String × String))))
    (nodeRef property : String) : String :=
  match findNode nodes nodeRef with
  | none => "$\x7b" ++ nodeRef ++ "." ++ property ++ "\x7d"
  | some node =>
    let fromOutputs : Option String :=
      match resolvedOutputs with
      | some outs =>
        match outs.lookup node.id with
        | some outputs => outputs.lookup property
        | none => none
      | none => none
    match fromOutputs with
    | some v => v
    | none =>
      let terraformResourceName := sanitizeName node.id
      match node.kind, property with
      | .database, "endpoint" =>
        "$\x7baws_db_instance." ++ terraformResourceName ++ ".endpoint\x7d"
      | .database, "port" =>
        "$\x7baws_db_instance." ++ terraformResourceName ++ ".port\x7d"
      | .database, "address" =>
        "$\x7baws_db_instance." ++ terraformResourceName ++ ".address\x7d"
      | .compute_instance, "private_ip" =>
        "$\x7baws_instance." ++ terraformResourceName ++ ".private_ip\x7d"
      | .compute_instance, "public_ip" =>
        "$\x7baws_instance." ++ terraformResourceName ++ ".public_ip\x7d"
      | .load_balancer, "dns_name" =>
        "$\x7baws_lb." ++ terraformResourceName ++ ".dns_name\x7d"
      | _, _ =>
        "$\x7b" ++ terraformResourceName ++ "." ++ property ++ "\x7d"

/-- One attempted match of the pattern
`/\x5c\x7b\x5c\x7b([^.\x7d]+)\x5c.([^\x7d]+)\x5c\x7d\x5c\x7d/` at the
head of the character list.  Returns the two capture groups and the
remainder after the match.  The character-class runs are taken greedily;
since each run is bounded by a character excluded from its class, greedy
`takeWhile` is exact (no backtracking can succeed where it fails). -/
def tryMatch : List Char → Option (String × String × List Char)
  | c1 :: c2 :: rest =>
    if c1 = '\x7b' && c2 = '\x7b' then
      let refRun := rest.takeWhile (fun c => !(c == '.') && !(c == '\x7d'))
      let rest1 := rest.dropWhile (fun c => !(c == '.') && !(c == '\x7d'))
      match rest1 with
      | d :: rest2 =>
        if !refRun.isEmpty && d = '.' then
          let propRun := rest2.takeWhile (fun c => !(c == '\x7d'))
          let rest3 := rest2.dropWhile (fun c => !(c == '\x7d'))
          match rest3 with
          | e1 :: e2 :: rest4 =>
            if !propRun.isEmpty && e1 = '\x7d' && e2 = '\x7d' then
              some (String.mk refRun, String.mk propRun, rest4)
            else none
          | _ => none
        else none
      | _ => none
    else none
  | _ => none

/-- The global-replace loop of `value.replace(pattern, replacer)`: at
each position, either a match is consumed and replaced, or one character
is copied verbatim.  Structured with a fuel argument equal to the input
length; each step consumes at least one character, so the fuel never runs
out before the list does. -/
def scanRefsAux (repl : String → String → String) : Nat → List Char → List Char
  | 0, _ => []
  | _, [] => []
  | fuel + 1, c :: cs =>
    match tryMatch (c :: cs) with
    | some (r, p, rest) => (repl r p).toList ++ scanRefsAux repl fuel rest
    | none => c :: scanRefsAux repl fuel cs

/-- `resolveNodeReferences` from `userDataGenerator.ts`: rewrite every
`\x7b\x7bNodeName.property\x7d\x7d` occurrence in `value` via the
replacer. -/
def resolveNodeReferences (value : String) (nodes : List BaseNode)
    (resolvedOutputs : Option (List (String × List (String × String)))) : String :=
  String.mk (scanRefsAux (replaceMatch nodes resolvedOutputs)
    value.toList.length value.toList)

/-! ## CIDR blocks

The backend parses CIDR strings with Python's `ipaddress` library and
tests pairwise network overlap.  A block `a.b.c.d/m` covers the
`2^(32-m)` addresses starting at the masked base address. -/

/-- decimal digit → character. -/
def digitChar (d : Nat) : Char := Char.ofNat (48 + d)

/-- Decimal rendering of a natural number.  The fuel argument (set to
`n + 1`, always at least the digit count) keeps the recursion
structural. -/
def natDigitsAux : Nat → Nat → List Char
  | 0, _ => []
  | fuel + 1, n =>
    if n < 10 then [digitChar n]
    else natDigitsAux fuel (n / 10) ++ [digitChar (n % 10)]

/-- Decimal rendering of a natural number as a string. -/
def natToStr (n : Nat) : String := String.mk (natDigitsAux (n + 1) n)

/-- character → decimal digit value. -/
def digitVal (c : Char) : Option Nat :=
  if '0' ≤ c ∧ c ≤ '9' then some (c.toNat - 48) else none

def parseNatAux : List Char → Nat → Option Nat
  | [], acc => some acc
  | c :: cs, acc =>
    match digitVal c with
    | some d => parseNatAux cs (acc * 10 + d)
    | none => none

/-- Parse a decimal natural number from characters. -/
def parseNatChars (l : List Char) : Option Nat :=
  if l.isEmpty then none else parseNatAux l 0

/-- Split a character list on a separator character. -/
def splitOnChar (sep : Char) : List Char → List (List Char)
  | [] => [[]]
  | c :: cs =>
    let rest := splitOnChar sep cs
    if c = sep then [] :: rest
    else
      match rest with
      | [] => [[c]]
      | r :: rs => (c :: r) :: rs

/-- An IPv4 CIDR block `o1.o2.o3.o4/maskBits`. -/
structure Cidr where
  o1 : Nat
  o2 : Nat
  o3 : Nat
  o4 : Nat
  maskBits : Nat
  deriving DecidableEq, Repr

/-- The 32-bit address of the dotted quad. -/
def Cidr.addr (c : Cidr) : Nat := ((c.o1 * 256 + c.o2) * 256 + c.o3) * 256 + c.o4

/-- Number of addresses covered by the block. -/
def Cidr.blockSize (c : Cidr) : Nat := 2 ^ (32 - c.maskBits)

/-- First covered address (the base address masked to the block). -/
def Cidr.lo (c : Cidr) : Nat := c.addr - c.addr % c.blockSize

/-- One past the last covered address. -/
def Cidr.hi (c : Cidr) : Nat := c.lo + c.blockSize

/-- Network overlap of two CIDR blocks, as `ipaddress.ip_network(..).overlaps`:
the covered address ranges intersect. -/
def cidrOverlap (x y : Cidr) : Bool := max x.lo y.lo < min x.hi y.hi

/-- Modelled from the spec: CIDR-string parsing as the validator does via
the `ipaddress` library (the backend `cidr_overlap.py` is not in this
source tree): dotted quad, slash, mask length, octets below 256, mask at
most 32. -/
def parseCidr (s : String) : Option Cidr :=
  match splitOnChar '/' s.toList with
  | [ipPart, maskPart] =>
    match splitOnChar '.' ipPart with
    | [a, b, c, d] =>
      match parseNatChars a, parseNatChars b, parseNatChars c,
          parseNatChars d, parseNatChars maskPart with
      | some v1, some v2, some v3, some v4, some m =>
        if v1 < 256 && v2 < 256 && v3 < 256 && v4 < 256 && m ≤ 32 then
          some ⟨v1, v2, v3, v4, m⟩
        else none
      | _, _, _, _, _ => none
    | _ => none
  | _ => none

/-! ## Validation: the CIDR-overlap pass -/

/-- Lookup of a `props` attribute on a node. -/
def lookupProp (n : BaseNode) (key : String) : Option String := n.props.lookup key

/-- Modelled from the spec: the grouping step of the CIDR-overlap pass —
subnets are grouped by their owning network via `contains` /
`attached_to` edges back to the network node (the backend
`cidr_overlap.py` is not in this source tree). -/
def ownedSubnets (g : TopologyGraph) (net : BaseNode) : List BaseNode :=
  g.nodes.filter (fun s => s.kind == .subnet &&
    g.edges.any (fun e =>
      (e.kind == .contains && e.«from» == net.id && e.«to» == s.id) ||
      (e.kind == .attached_to && e.«from» == s.id && e.«to» == net.id)))

/-- Every unordered pair of distinct list positions, once. -/
def distinctPairs {α : Type} : List α → List (α × α)
  | [] => []
  | x :: xs => xs.map (fun y => (x, y)) ++ distinctPairs xs

/-- Modelled from the spec: the CIDR-overlap validation pass (backend
`cidr_overlap.py`, not in this source tree) — group subnet nodes by
owning network, parse their CIDR blocks, test pairwise overlap, and emit
one `error` per overlapping pair naming both subnet ids. -/
def cidrOverlapPass (g : TopologyGraph) : List ValidationResult :=
  (g.nodes.filter (fun n => n.kind == .network)).flatMap (fun net =>
    (distinctPairs (ownedSubnets g net)).filterMap (fun p =>
      match lookupProp p.1 "cidr_block", lookupProp p.2 "cidr_block" with
      | some c1, some c2 =>
        match parseCidr c1, parseCidr c2 with
        | some n1, some n2 =>
          if cidrOverlap n1 n2 then
            some { id := "cidr-overlap-" ++ p.1.id ++ "-" ++ p.2.id,
                   severity := .error,
                   message := "CIDR overlap between subnets " ++ p.1.id ++
                     " and " ++ p.2.id,
                   nodeIds := some [p.1.id, p.2.id] }
          else none
        | _, _ => none
      | _, _ => none))

/-! ## Tier classification and the Topology Builder

The backend builder (`backend/app/core/builder.py`, 825 lines) is not in
this source tree; it is modelled here from the specification (§4.1,
§4.2) and from the code excerpts of `src/TECHNICAL_CHALLENGES.md`
(`_detect_complexity_tier`, `_next_subnet_cidr`, round-robin
distribution, fallback-chain subnet selection). -/

/-- Component role of `ComponentSpec` (builder input). -/
inductive Role where
  | web_tier
  | db_tier
  | traffic_gen
  | networking
  | other
  deriving DecidableEq, Repr

/-- One component of the builder input. -/
structure ComponentSpec where
  role : Role
  quantity : Int := 1
  description : String := ""
  constraints : List String := []
  deriving DecidableEq, Repr

/-- The builder input: provider, region, ordered component list. -/
structure TopologySpec where
  provider : String
  region : String
  components : List ComponentSpec
  deriving DecidableEq, Repr

/-- `tier2_keywords` of `_detect_complexity_tier`
(TECHNICAL_CHALLENGES.md lines 69–70). -/
def tier2Keywords : List String :=
  ["production", "high availability", "ha", "multi-az", "load balancer"]

/-- `tier1_keywords` of `_detect_complexity_tier`
(TECHNICAL_CHALLENGES.md line 71). -/
def tier1Keywords : List String := ["simple", "cheap", "test", "mvp", "hobby"]

/-- Lower-cased character sequence of a string. -/
def lowerChars (s : String) : List Char := s.toList.map Char.toLower

/-- Does the haystack start with the needle? -/
def startsWithChars : List Char → List Char → Bool
  | [], _ => true
  | _ :: _, [] => false
  | a :: as, b :: bs => a == b && startsWithChars as bs

/-- Substring containment on character lists. -/
def containsChars (needle : List Char) : List Char → Bool
  | [] => startsWithChars needle []
  | c :: cs => startsWithChars needle (c :: cs) || containsChars needle cs

/-- Case-insensitive substring containment: `kw in user_text` on the
lower-cased concatenated text. -/
def containsKeyword (text kw : String) : Bool :=
  containsChars kw.toList (lowerChars text)

/-- The concatenated description text of all components. -/
def userText (spec : TopologySpec) : String :=
  String.intercalate " " (spec.components.map (fun comp => comp.description))

/-- Modelled from the spec: `_detect_complexity_tier` — an upgrade
keyword anywhere in the component descriptions forces tier 2, otherwise
the default is tier 1 (the availability bias makes tier 2 win when both
keyword classes occur). -/
def detectComplexityTier (spec : TopologySpec) : Nat :=
  if tier2Keywords.any (fun kw => containsKeyword (userText spec) kw) then 2 else 1

/-- Modelled from the spec: `_next_subnet_cidr` — the monotonic
per-graph counter yields `10.0.<counter>.0/24` and increments. -/
def nextSubnetCidr (counter : Nat) : String × Nat :=
  ("10.0." ++ natToStr counter ++ ".0/24", counter + 1)

/-- One planned subnet: name, availability zone, public flag, and the
logical tier role it serves. -/
structure SubnetPlanEntry where
  sname : String
  zone : String
  isPublic : Bool
  roleTag : String
  deriving DecidableEq, Repr

/-- Modelled from the spec: the subnet layout per tier — tier 1: one
public subnet per present logical tier (web, db) in the single zone;
tier 2: one public and one private subnet per zone, two zones. -/
def subnetPlan (spec : TopologySpec) (tier : Nat) : List SubnetPlanEntry :=
  let zoneA := spec.region ++ "a"
  let zoneB := spec.region ++ "b"
  if tier = 2 then
    [⟨"subnet-public-1", zoneA, true, "web"⟩,
     ⟨"subnet-public-2", zoneB, true, "web"⟩,
     ⟨"subnet-private-1", zoneA, false, "db"⟩,
     ⟨"subnet-private-2", zoneB, false, "db"⟩]
  else
    (if spec.components.any (fun comp => comp.role == .web_tier) then
      [⟨"subnet-web-1", zoneA, true, "web"⟩] else []) ++
    (if spec.components.any (fun comp => comp.role == .db_tier) then
      [⟨"subnet-db-1", zoneA, true, "db"⟩] else [])

/-- Modelled from the spec: subnet nodes allocated sequentially, each
consuming the next block from the monotonic per-graph counter. -/
def allocSubnets (region : String) : List SubnetPlanEntry → Nat → List BaseNode
  | [], _ => []
  | e :: rest, k =>
    { id := e.sname, kind := .subnet, region := some region, az := some e.zone,
      props := [("cidr_block", (nextSubnetCidr k).1),
                ("public", if e.isPublic then "true" else "false"),
                ("role", e.roleTag)] }
      :: allocSubnets region rest (nextSubnetCidr k).2

/-- Modelled from the spec: the network container node with its fixed
`/16` address block. -/
def vpcNode (region : String) : BaseNode :=
  { id := "vpc-main", kind := .network, name := some "main-vpc",
    provider := some .aws, region := some region,
    props := [("cidr_block", "10.0.0.0/16")] }

/-- Modelled from the spec: the internet gateway, allocated always. -/
def internetGateway (region : String) : BaseNode :=
  { id := "igw-main", kind := .gateway, region := some region,
    props := [("gateway_type", "internet")] }

/-- Modelled from the spec: the NAT gateway, allocated only under
tier 2. -/
def natGateway (region zone : String) : BaseNode :=
  { id := "nat-main", kind := .gateway, region := some region,
    az := some zone, props := [("gateway_type", "nat")] }

/-- Modelled from the spec: the public route table. -/
def routeTablePublic (region : String) : BaseNode :=
  { id := "rt-public", kind := .route_table, region := some region }

/-- Modelled from the spec: the private route table (tier 2 only). -/
def routeTablePrivate (region : String) : BaseNode :=
  { id := "rt-private", kind := .route_table, region := some region }

/-- Modelled from the spec: the database port — 3306 when an alternate
engine is named in a component's constraints, 5432 for the default
engine. -/
def dbPort (spec : TopologySpec) : String :=
  if spec.components.any (fun comp =>
      comp.constraints.any (fun s => containsKeyword s "mysql")) then "3306"
  else "5432"

/-- Modelled from the spec: the web-facing security group, inbound
80/443 and 22 for administrative access. -/
def webSecurityGroup (region : String) : BaseNode :=
  { id := "sg-web", kind := .security_group, region := some region,
    props := [("ingress_ports", "80,443,22")] }

/-- Modelled from the spec: the database security group, inbound only
from the web tier's group on the role-appropriate port. -/
def dbSecurityGroup (spec : TopologySpec) : BaseNode :=
  { id := "sg-db", kind := .security_group, region := some spec.region,
    props := [("ingress_port", dbPort spec), ("source_group", "sg-web")] }

/-- Modelled from the spec: the load balancer node (tier 2 only). -/
def loadBalancerNode (region : String) : BaseNode :=
  { id := "lb-main", kind := .load_balancer, region := some region }

/-- Modelled from the spec: compute nodes for the web-tier components,
round-robin distributed across the available web subnets, each matching
its subnet's zone. -/
def mkComputeNodes (spec : TopologySpec) (webSubnets : List BaseNode) : List BaseNode :=
  ((spec.components.enum.filter (fun p => p.2.role == .web_tier)).flatMap (fun p =>
    (List.range p.2.quantity.toNat).map (fun i =>
      let sn := webSubnets.getD (i % webSubnets.length) { id := "none", kind := .subnet }
      { id := "web-" ++ natToStr p.1 ++ "-" ++ natToStr i,
        kind := .compute_instance, region := some spec.region, az := sn.az,
        props := [("subnet_id", sn.id), ("instance_type", "t3.micro")] })))

/-- Modelled from the spec: the fallback-chain subnet pool for
databases — db-eligible subnets, else the private set, else the public
set. -/
def dbSubnetPool (subnets : List BaseNode) : List BaseNode :=
  let eligible := subnets.filter (fun s => lookupProp s "role" == some "db")
  let privates := subnets.filter (fun s => lookupProp s "public" == some "false")
  let publics := subnets.filter (fun s => lookupProp s "public" == some "true")
  if !eligible.isEmpty then eligible
  else if !privates.isEmpty then privates
  else publics

/-- Modelled from the spec: one database node per db-tier component,
placed in the head of the fallback-chain pool. -/
def mkDatabaseNodes (spec : TopologySpec) (pool : List BaseNode) : List BaseNode :=
  (spec.components.enum.filter (fun p => p.2.role == .db_tier)).map (fun p =>
    let sn := pool.getD 0 { id := "none", kind := .subnet }
    { id := "db-" ++ natToStr p.1, kind := .database,
      region := some spec.region, az := sn.az,
      props := [("engine", if dbPort spec = "3306" then "mysql" else "postgres"),
                ("subnet_id", sn.id)] })

/-- Modelled from the spec: one traffic-generator node per traffic-gen
component. -/
def mkTrafficGenNodes (spec : TopologySpec) : List BaseNode :=
  (spec.components.enum.filter (fun p => p.2.role == .traffic_gen)).map (fun p =>
    { id := "tgen-" ++ natToStr p.1, kind := .traffic_generator,
      region := some spec.region })

/-- Modelled from the spec: the builder's edge emission — `contains`
for network→subnet ownership, `attached_to` for subnet→network and
instance→subnet, `routes_to` from route tables to gateways and from the
load balancer to its targets, `allowed_traffic` between security
groups, `depends_on` from the load balancer to its targets. -/
def buildEdges (spec : TopologySpec) (tier : Nat)
    (subnets computes : List BaseNode) : List Edge :=
  let publics := subnets.filter (fun s => lookupProp s "public" == some "true")
  let privates := subnets.filter (fun s => lookupProp s "public" == some "false")
  let hasWeb := spec.components.any (fun comp => comp.role == .web_tier)
  let hasDb := spec.components.any (fun comp => comp.role == .db_tier)
  (subnets.map (fun s =>
    { id := "e-contains-" ++ s.id, kind := .contains,
      «from» := "vpc-main", «to» := s.id })) ++
  (subnets.map (fun s =>
    { id := "e-attach-" ++ s.id, kind := .attached_to,
      «from» := s.id, «to» := "vpc-main" })) ++
  (computes.map (fun n =>
    { id := "e-inst-" ++ n.id, kind := .attached_to,
      «from» := n.id, «to» := (lookupProp n "subnet_id").getD "" })) ++
  [{ id := "e-rt-public-igw", kind := .routes_to,
     «from» := "rt-public", «to» := "igw-main" }] ++
  (if tier = 2 then
    [{ id := "e-rt-private-nat", kind := .routes_to,
       «from» := "rt-private", «to» := "nat-main" }] else []) ++
  (publics.map (fun s =>
    { id := "e-rta-public-" ++ s.id, kind := .attached_to,
      «from» := "rt-public", «to» := s.id })) ++
  (if tier = 2 then
    privates.map (fun s =>
      { id := "e-rta-private-" ++ s.id, kind := .attached_to,
        «from» := "rt-private", «to» := s.id }) else []) ++
  (if hasWeb && hasDb then
    [{ id := "e-sg-web-db", kind := .allowed_traffic,
       «from» := "sg-web", «to» := "sg-db",
       props := [("port", dbPort spec)] }] else []) ++
  (if tier = 2 then
    (publics.map (fun s =>
      { id := "e-lb-" ++ s.id, kind := .attached_to,
        «from» := "lb-main", «to» := s.id })) ++
    (computes.map (fun n =>
      { id := "e-lb-fwd-" ++ n.id, kind := .routes_to,
        «from» := "lb-main", «to» := n.id })) ++
    (computes.map (fun n =>
      { id := "e-lb-dep-" ++ n.id, kind := .depends_on,
        «from» := "lb-main", «to» := n.id })) else [])

/-- Modelled from the spec: `Build(spec) -> (Graph, error)` — the
Topology Builder (backend `builder.py`, not in this source tree):
validate the spec, classify the tier from the description text, then
expand network container, subnets (monotonic CIDR counter), gateways,
route tables, security groups, compute, database and traffic-generator
nodes, and the wiring edges. -/
def Build (spec : TopologySpec) : Except String TopologyGraph :=
  if spec.provider ≠ "aws" then
    .error ("unsupported provider: " ++ spec.provider)
  else if spec.components.any (fun comp =>
      (comp.role == .web_tier || comp.role == .db_tier) && comp.quantity ≤ 0) then
    .error "invalid component quantity: at least one instance required"
  else
    let tier := detectComplexityTier spec
    let subnets := allocSubnets spec.region (subnetPlan spec tier) 0
    let webSubnets := subnets.filter (fun s => lookupProp s "public" == some "true")
    let computes := mkComputeNodes spec webSubnets
    let dbs := mkDatabaseNodes spec (dbSubnetPool subnets)
    let tgens := mkTrafficGenNodes spec
    let hasWeb := spec.components.any (fun comp => comp.role == .web_tier)
    let hasDb := spec.components.any (fun comp => comp.role == .db_tier)
    let gateways := [internetGateway spec.region] ++
      (if tier = 2 then [natGateway spec.region (spec.region ++ "a")] else [])
    let routeTables := [routeTablePublic spec.region] ++
      (if tier = 2 then [routeTablePrivate spec.region] else [])
    let sgs := (if hasWeb then [webSecurityGroup spec.region] else []) ++
      (if hasDb then [dbSecurityGroup spec] else [])
    let lbs := if tier = 2 then [loadBalancerNode spec.region] else []
    .ok { id := "topology-1", name := some "generated-topology",
          nodes := [vpcNode spec.region] ++ subnets ++ gateways ++ routeTables ++
            sgs ++ lbs ++ computes ++ dbs ++ tgens,
          edges := buildEdges spec tier subnets computes }

/-! ## User-data encoding (from `encodeUserDataForTerraform`)

`encodeUserDataForTerraform` returns
`btoa(unescape(encodeURIComponent(script)))` in the browser and
`Buffer.from(script, 'utf-8').toString('base64')` in Node — both compute
the base64 encoding of the script's UTF-8 bytes. -/

/-- UTF-8 byte sequence of one code point. -/
def utf8EncodeChar (c : Char) : List Nat :=
  let n := c.toNat
  if n < 128 then [n]
  else if n < 2048 then [192 + n / 64, 128 + n % 64]
  else if n < 65536 then
    [224 + n / 4096, 128 + (n / 64) % 64, 128 + n % 64]
  else
    [240 + n / 262144, 128 + (n / 4096) % 64, 128 + (n / 64) % 64, 128 + n % 64]

/-- UTF-8 byte encoding of a string. -/
def utf8Encode (s : String) : List Nat := s.toList.flatMap utf8EncodeChar

/-- The base64 alphabet. -/
def b64Alphabet : List Char :=
  ['A', 'B', 'C', 'D', 'E', 'F', 'G', 'H', 'I', 'J', 'K', 'L', 'M',
   'N', 'O', 'P', 'Q', 'R', 'S', 'T', 'U', 'V', 'W', 'X', 'Y', 'Z',
   'a', 'b', 'c', 'd', 'e', 'f', 'g', 'h', 'i', 'j', 'k', 'l', 'm',
   'n', 'o', 'p', 'q', 'r', 's', 't', 'u', 'v', 'w', 'x', 'y', 'z',
   '0', '1', '2', '3', '4', '5', '6', '7', '8', '9', '+', '/']

/-- Sextet value → base64 character. -/
def b64Char (n : Nat) : Char := b64Alphabet.getD n 'A'

/-- base64 character → sextet value. -/
def b64Val (c : Char) : Option Nat := b64Alphabet.findIdx? (fun x => x == c)

/-- base64 encoding of a byte list: three bytes become four characters,
a one- or two-byte remainder is padded with `=`. -/
def base64Encode : List Nat → List Char
  | [] => []
  | [b1] => [b64Char (b1 / 4), b64Char (b1 % 4 * 16), '=', '=']
  | [b1, b2] =>
    [b64Char (b1 / 4), b64Char (b1 % 4 * 16 + b2 / 16), b64Char (b2 % 16 * 4), '=']
  | b1 :: b2 :: b3 :: rest =>
    b64Char (b1 / 4) :: b64Char (b1 % 4 * 16 + b2 / 16) ::
      b64Char (b2 % 16 * 4 + b3 / 64) :: b64Char (b3 % 64) :: base64Encode rest

/-- `encodeUserDataForTerraform` from `userDataGenerator.ts`: the base64
encoding of the script's UTF-8 bytes. -/
def encodeUserDataForTerraform (script : String) : String :=
  String.mk (base64Encode (utf8Encode script))

/-- Standard base64 decoding (the decoder the round-trip claim is stated
against): four characters at a time, `=` padding only in a final
quantum, rejecting non-canonical padding bits. -/
def base64Decode : List Char → Option (List Nat)
  | [] => some []
  | c1 :: c2 :: c3 :: c4 :: rest =>
    match b64Val c1, b64Val c2 with
    | some n1, some n2 =>
      if c3 = '=' then
        if c4 = '=' ∧ rest = [] then
          if n2 % 16 = 0 then some [n1 * 4 + n2 / 16] else none
        else none
      else
        match b64Val c3 with
        | some n3 =>
          if c4 = '=' then
            if rest = [] then
              if n3 % 4 = 0 then
                some [n1 * 4 + n2 / 16, n2 % 16 * 16 + n3 / 4]
              else none
            else none
          else
            match b64Val c4 with
            | some n4 =>
              (base64Decode rest).map (fun tail =>
                (n1 * 4 + n2 / 16) :: (n2 % 16 * 16 + n3 / 4) ::
                  (n3 % 4 * 64 + n4) :: tail)
            | none => none
        | none => none
    | _, _ => none
  | _ => none

/-! ## The Code Generator

The backend Terraform generator (`backend/app/terraform/aws/generator.py`,
489 lines) is not in this source tree; it is modelled here from the
specification (§4.4) and the code excerpts of
`src/TECHNICAL_CHALLENGES.md` (rule decomposition, RDS dynamic subnet
creation).  The deployment descriptor is a resource-type-keyed document:
type → sanitized resource name → attribute map. -/

/-- Attribute map of one resource declaration. -/
abbrev AttrMap := List (String × String)

/-- One resource-type bucket: sanitized name → attributes. -/
abbrev ResourceBucket := List (String × AttrMap)

/-- The deployment descriptor: resource type → bucket. -/
abbrev Descriptor := List (String × ResourceBucket)

/-- Modelled from the spec: the availability zone offset used for the
synthesized second subnet — a zone different from the original
(`us-east-2a` → `us-east-2b`; a zone already ending in `b` is offset
back to `a` so the result is always a different zone). -/
def zoneOffset (az : String) : String :=
  if az.toList.getLast? = some 'b' then String.mk (az.toList.dropLast ++ ['a'])
  else String.mk (az.toList.dropLast ++ ['b'])

/-- The CIDR strings already present on nodes of a graph. -/
def usedCidrs (g : TopologyGraph) : List String :=
  g.nodes.filterMap (fun n => lookupProp n "cidr_block")

/-- Modelled from the spec: the next unused CIDR block under the same
counter discipline as the Builder — the first `10.0.<k>.0/24` (k below
the 256 blocks of the `/16`) not already present in the graph. -/
def nextUnusedCidr (g : TopologyGraph) : Option String :=
  ((List.range 256).find?
    (fun k => !(usedCidrs g).contains (nextSubnetCidr k).1)).map
    (fun k => (nextSubnetCidr k).1)

/-- Modelled from the spec: the subnets eligible for a database subnet
group — the graph's subnet nodes. -/
def eligibleDbSubnets (g : TopologyGraph) : List BaseNode :=
  g.nodes.filter (fun n => n.kind == .subnet)

/-- Modelled from the spec: the synthesized subnet — id derived from the
original, a zone offset from the original zone, and the next unused CIDR
block. -/
def synthSubnet (orig : BaseNode) (cidr : String) : BaseNode :=
  { id := orig.id ++ "-az2", kind := .subnet, region := orig.region,
    az := some (zoneOffset (orig.az.getD "")),
    props := [("cidr_block", cidr), ("public", "false"), ("role", "db"),
              ("synthesized", "true")] }

/-- Modelled from the spec: the generator's private working copy — when
a database is present but the graph supplies fewer than two eligible
subnets, exactly one synthesized subnet is appended to the copy (never
to the caller's graph); with no subnet to derive from, generation
fails. -/
def generatorWorkingGraph (g : TopologyGraph) : Option TopologyGraph :=
  if g.nodes.any (fun n => n.kind == .database) then
    match eligibleDbSubnets g with
    | [] => none
    | [orig] =>
      match nextUnusedCidr g with
      | some cidr => some { g with nodes := g.nodes ++ [synthSubnet orig cidr] }
      | none => none
    | _ => some g
  else some g

/-- Interpolation reference to a security-group resource's id. -/
def sgRef (nodeId : String) : String :=
  "$\x7baws_security_group." ++ sanitizeName nodeId ++ ".id\x7d"

/-- Modelled from the spec: `Generate(graph)` — fail fast on a dangling
edge reference; clone-before-mutate RDS subnet synthesis; lower nodes to
resource buckets; never emit inline ingress/egress on a security group:
every `allowed_traffic` edge becomes one standalone
`aws_security_group_rule` resource referencing the two groups by id.
`generateDescriptor` lowers the working copy to the resource document;
`Generate` checks for dangling edges, builds the working copy and emits
the descriptor. -/
def generateDescriptor (work : TopologyGraph) : Descriptor :=
  [("aws_vpc",
    (work.nodes.filter (fun n => n.kind == .network)).map (fun n =>
      (sanitizeName n.id,
        [("cidr_block", (lookupProp n "cidr_block").getD "10.0.0.0/16")]))),
   ("aws_subnet",
    (work.nodes.filter (fun n => n.kind == .subnet)).map (fun n =>
      (sanitizeName n.id,
        [("vpc_id", "$\x7baws_vpc.vpc_main.id\x7d"),
         ("cidr_block", (lookupProp n "cidr_block").getD ""),
         ("availability_zone", n.az.getD "")]))),
   ("aws_security_group",
    (work.nodes.filter (fun n => n.kind == .security_group)).map (fun n =>
      (sanitizeName n.id,
        [("name", n.id),
         ("vpc_id", "$\x7baws_vpc.vpc_main.id\x7d"),
         ("description", "managed security group")]))),
   ("aws_security_group_rule",
    (work.edges.filter (fun e => e.kind == .allowed_traffic)).map (fun e =>
      (sanitizeName e.id,
        [("type", "ingress"),
         ("security_group_id", sgRef e.«to»),
         ("source_security_group_id", sgRef e.«from»),
         ("from_port", (e.props.lookup "port").getD "0"),
         ("to_port", (e.props.lookup "port").getD "0"),
         ("protocol", "tcp")])))]

def Generate (g : TopologyGraph) : Except String (TopologyGraph × Descriptor) :=
  match g.edges.find? (fun e =>
      !(g.nodes.any (fun n => n.id == e.«from»)) ||
      !(g.nodes.any (fun n => n.id == e.«to»))) with
  | some e => .error ("dangling edge reference: " ++ e.id)
  | none =>
    match generatorWorkingGraph g with
    | none => .error "database present but no subnet to derive a subnet group from"
    | some work => .ok (work, generateDescriptor work)

/-- The result a successful `Generate` returns, or a trivial pair on
failure (used to state concrete witnesses). -/
def generateResult (g : TopologyGraph) : TopologyGraph × Descriptor :=
  match Generate g with
  | .ok r => r
  | .error _ => (g, [])

/-- A graph with a database and a single eligible subnet, for the RDS
synthesis scenario. -/
def rdsDemoSubnet : BaseNode :=
  { id := "subnet-main", kind := .subnet, az := some "us-east-2a",
    props := [("cidr_block", "10.0.0.0/24")] }

/-- The database node of the RDS synthesis scenario. -/
def rdsDemoDb : BaseNode :=
  { id := "db-main", kind := .database, az := some "us-east-2a",
    props := [("engine", "postgres")] }

/-- The RDS synthesis scenario graph: database plus one subnet. -/
def rdsDemoGraph : TopologyGraph :=
  { id := "g-rds", nodes := [rdsDemoSubnet, rdsDemoDb], edges := [] }

/-- A two-group graph with one `allowed_traffic` edge, for the rule
decomposition scenario. -/
def sgDemoGraph : TopologyGraph :=
  { id := "g-sg"
    nodes := [{ id := "sg-web", kind := .security_group },
              { id := "sg-db", kind := .security_group }]
    edges := [{ id := "e-sg-web-db", kind := .allowed_traffic,
                «from» := "sg-web", «to» := "sg-db",
                props := [("port", "5432")] }] }

/-- The graph a successful `Build` returns, or the empty graph on
failure (used to state concrete witnesses). -/
def buildOrEmpty (spec : TopologySpec) : TopologyGraph :=
  match Build spec with
  | .ok g => g
  | .error _ => { id := "", nodes := [], edges := [] }

/-- A minimal web+db spec whose descriptions carry no tier-signaling
keyword. -/
def tier1DemoSpec : TopologySpec :=
  { provider := "aws", region := "us-east-2",
    components :=
      [{ role := .web_tier, quantity := 1, description := "web app" },
       { role := .db_tier, quantity := 1, description := "postgres db" }] }

/-- The web subnet `Build tier1DemoSpec` allocates (counter value 0). -/
def demoSubnetWeb : BaseNode :=
  { id := "subnet-web-1", kind := .subnet, region := some "us-east-2",
    az := some "us-east-2a",
    props := [("cidr_block", "10.0.0.0/24"), ("public", "true"), ("role", "web")] }

/-- The db subnet `Build tier1DemoSpec` allocates (counter value 1). -/
def demoSubnetDb : BaseNode :=
  { id := "subnet-db-1", kind := .subnet, region := some "us-east-2",
    az := some "us-east-2a",
    props := [("cidr_block", "10.0.1.0/24"), ("public", "true"), ("role", "db")] }

/-- A hand-constructed network node for the overlap-detection scenario. -/
def overlapNet : BaseNode := { id := "vpc-1", kind := .network }

/-- First hand-constructed subnet, CIDR `10.0.1.0/24`. -/
def overlapSubA : BaseNode :=
  { id := "sub-a", kind := .subnet, props := [("cidr_block", "10.0.1.0/24")] }

/-- Second hand-constructed subnet, same CIDR block. -/
def overlapSubB : BaseNode :=
  { id := "sub-b", kind := .subnet, props := [("cidr_block", "10.0.1.0/24")] }

/-- A hand-constructed graph with two subnets under the same network both
set to the same CIDR block. -/
def overlapGraph : TopologyGraph :=
  { id := "g-overlap"
    nodes := [overlapNet, overlapSubA, overlapSubB]
    edges := [{ id := "e1", kind := .contains, «from» := "vpc-1", «to» := "sub-a" },
              { id := "e2", kind := .contains, «from» := "vpc-1", «to» := "sub-b" }] }

/-! ### Helper lemmas -/

/-- A block always overlaps itself: its address range is nonempty. -/
theorem cidrOverlap_self (c : Cidr) : cidrOverlap c c = true := by
  simp only [cidrOverlap, Cidr.hi, max_self, min_self, decide_eq_true_eq]
  have : 0 < c.blockSize := Nat.pos_pow_of_pos _ (by omega)
  omega

theorem getD_mem_cons {α : Type} (l : List α) (i : Nat) (d : α) :
    l.getD i d ∈ d :: l := by
  unfold List.getD
  cases h : l.get? i with
  | none => simp
  | some x =>
    have hx : x ∈ l := List.get?_mem h
    simp [hx]

theorem mem_ite_singleton {α : Type} {b : Prop} [Decidable b] {a x : α}
    (h : a ∈ (if b then [x] else [])) : a = x := by
  split at h
  · simpa using h
  · simp at h

theorem detect_tier_no_keywords (spec : TopologySpec)
    (h : ∀ kw ∈ tier2Keywords, containsKeyword (userText spec) kw = false) :
    detectComplexityTier spec = 1 := by
  unfold detectComplexityTier
  have hall : tier2Keywords.any (fun kw => containsKeyword (userText spec) kw) = false := by
    rw [List.any_eq_false]
    intro kw hkw
    simp [h kw hkw]
  simp [hall]

theorem subnetPlan_tier1_mem (spec : TopologySpec) (e : SubnetPlanEntry)
    (h : e ∈ subnetPlan spec 1) :
    e.zone = spec.region ++ "a" ∧ e.isPublic = true := by
  unfold subnetPlan at h
  rw [if_neg (by decide)] at h
  rw [List.mem_append] at h
  rcases h with h | h <;> · have := mem_ite_singleton h; subst this; exact ⟨rfl, rfl⟩

theorem allocSubnets_mem (region : String) (plan : List SubnetPlanEntry)
    (k : Nat) (s : BaseNode) (h : s ∈ allocSubnets region plan k) :
    s.kind = .subnet ∧ ∃ e ∈ plan, s.az = some e.zone := by
  induction plan generalizing k with
  | nil => simp [allocSubnets] at h
  | cons e rest ih =>
    rw [allocSubnets, List.mem_cons] at h
    rcases h with h | h
    · subst h
      exact ⟨rfl, e, List.mem_cons_self e rest, rfl⟩
    · obtain ⟨hk, e', he', hz⟩ := ih _ h
      exact ⟨hk, e', List.mem_cons_of_mem e he', hz⟩

theorem mkComputeNodes_mem (spec : TopologySpec) (ws : List BaseNode)
    (n : BaseNode) (h : n ∈ mkComputeNodes spec ws) :
    n.kind = .compute_instance ∧ (n.az = none ∨ ∃ s ∈ ws, n.az = s.az) := by
  unfold mkComputeNodes at h
  rw [List.mem_flatMap] at h
  obtain ⟨p, _, hp⟩ := h
  rw [List.mem_map] at hp
  obtain ⟨i, _, hi⟩ := hp
  subst hi
  refine ⟨rfl, ?_⟩
  have hmem := getD_mem_cons ws (i % ws.length)
    ({ id := "none", kind := .subnet } : BaseNode)
  rw [List.mem_cons] at hmem
  rcases hmem with hd | hd
  · rw [hd]
    exact Or.inl rfl
  · exact Or.inr ⟨_, hd, rfl⟩

theorem mkDatabaseNodes_mem (spec : TopologySpec) (pool : List BaseNode)
    (n : BaseNode) (h : n ∈ mkDatabaseNodes spec pool) :
    n.kind = .database ∧ (n.az = none ∨ ∃ s ∈ pool, n.az = s.az) := by
  unfold mkDatabaseNodes at h
  rw [List.mem_map] at h
  obtain ⟨p, _, hp⟩ := h
  subst hp
  refine ⟨rfl, ?_⟩
  have hmem := getD_mem_cons pool 0 ({ id := "none", kind := .subnet } : BaseNode)
  rw [List.mem_cons] at hmem
  rcases hmem with hd | hd
  · rw [hd]
    exact Or.inl rfl
  · exact Or.inr ⟨_, hd, rfl⟩

theorem mkTrafficGenNodes_mem (spec : TopologySpec) (n : BaseNode)
    (h : n ∈ mkTrafficGenNodes spec) :
    n.kind = .traffic_generator ∧ n.az = none := by
  unfold mkTrafficGenNodes at h
  rw [List.mem_map] at h
  obtain ⟨p, _, hp⟩ := h
  subst hp
  exact ⟨rfl, rfl⟩

theorem dbSubnetPool_subset (subnets : List BaseNode) (x : BaseNode)
    (h : x ∈ dbSubnetPool subnets) : x ∈ subnets := by
  simp only [dbSubnetPool] at h
  split at h
  · exact List.mem_of_mem_filter h
  · split at h
    · exact List.mem_of_mem_filter h
    · exact List.mem_of_mem_filter h

theorem allocSubnets_char (region : String) (plan : List SubnetPlanEntry)
    (k : Nat) (s : BaseNode) (h : s ∈ allocSubnets region plan k) :
    ∃ i, i < plan.length ∧
      s.id = (plan.getD i ⟨"", "", true, ""⟩).sname ∧
      lookupProp s "cidr_block" = some (nextSubnetCidr (k + i)).1 := by
  induction plan generalizing k with
  | nil => simp [allocSubnets] at h
  | cons e rest ih =>
    rw [allocSubnets, List.mem_cons] at h
    rcases h with h | h
    · refine ⟨0, by simp, ?_, ?_⟩
      · subst h
        rfl
      · subst h
        simp [lookupProp]
    · obtain ⟨i, hi, hid, hcid⟩ := ih _ h
      refine ⟨i + 1, by simpa using hi, by simpa using hid, ?_⟩
      rw [hcid]
      have he2 : (nextSubnetCidr k).2 = k + 1 := rfl
      rw [he2]
      have : (k + 1) + i = k + (i + 1) := by omega
      rw [this]

theorem subnetPlan_length (spec : TopologySpec) (tier : Nat) :
    (subnetPlan spec tier).length ≤ 4 := by
  unfold subnetPlan
  split
  · simp
  · split <;> split <;> simp

theorem zoneOffset_ne (az : String) : zoneOffset az ≠ az := by
  unfold zoneOffset
  split
  · intro h
    have hdata : az.toList.dropLast ++ ['a'] = az.toList := congrArg String.toList h
    have hlast : az.toList.getLast? = some 'a' := by
      rw [← hdata]
      exact List.getLast?_concat _
    simp_all
  · intro h
    have hdata : az.toList.dropLast ++ ['b'] = az.toList := congrArg String.toList h
    have hlast : az.toList.getLast? = some 'b' := by
      rw [← hdata]
      exact List.getLast?_concat _
    simp_all

theorem char_toNat_lt (c : Char) : c.toNat < 1114112 := by
  have h := c.valid
  unfold UInt32.isValidChar Nat.isValidChar at h
  have he : Char.toNat c = c.val.toNat := rfl
  rw [he]
  omega

theorem utf8EncodeChar_lt (c : Char) : ∀ b ∈ utf8EncodeChar c, b < 256 := by
  have h := char_toNat_lt c
  intro b hb
  simp only [utf8EncodeChar] at hb
  split at hb <;> [skip; split at hb] <;> [skip; skip; split at hb] <;>
    simp only [List.mem_cons, List.not_mem_nil, or_false] at hb <;>
    rcases hb with rfl | rfl | rfl | rfl <;> omega

theorem b64_roundtrip_sextet : ∀ n, n < 64 → b64Val (b64Char n) = some n := by decide

theorem b64Char_ne_pad : ∀ n, n < 64 → b64Char n ≠ '=' := by decide

theorem base64_roundtrip_aux :
    ∀ (fuel : Nat) (l : List Nat), l.length ≤ fuel → (∀ b ∈ l, b < 256) →
      base64Decode (base64Encode l) = some l := by
  intro fuel
  induction fuel with
  | zero =>
    intro l hl _
    have : l = [] := List.length_eq_zero.mp (Nat.le_zero.mp hl)
    subst this
    rfl
  | succ fuel ih =>
    intro l hl hb
    match l with
    | [] => rfl
    | [b1] =>
      have h1 : b1 < 256 := hb b1 (by simp)
      have e1 := b64_roundtrip_sextet (b1 / 4) (by omega)
      have e2 := b64_roundtrip_sextet (b1 % 4 * 16) (by omega)
      rw [base64Encode, base64Decode, e1, e2]
      simp only [and_self, if_true]
      rw [if_pos (by omega)]
      simp only [Option.some.injEq, List.cons.injEq, and_true]
      omega
    | [b1, b2] =>
      have h1 : b1 < 256 := hb b1 (by simp)
      have h2 : b2 < 256 := hb b2 (by simp)
      have e1 := b64_roundtrip_sextet (b1 / 4) (by omega)
      have e2 := b64_roundtrip_sextet (b1 % 4 * 16 + b2 / 16) (by omega)
      have e3 := b64_roundtrip_sextet (b2 % 16 * 4) (by omega)
      have ne3 := b64Char_ne_pad (b2 % 16 * 4) (by omega)
      rw [base64Encode, base64Decode, e1, e2]
      simp only []
      rw [if_neg ne3, e3]
      simp only [if_true]
      rw [if_pos (by omega)]
      simp only [Option.some.injEq, List.cons.injEq, and_true]
      constructor <;> omega
    | b1 :: b2 :: b3 :: rest =>
      have h1 : b1 < 256 := hb b1 (by simp)
      have h2 : b2 < 256 := hb b2 (by simp)
      have h3 : b3 < 256 := hb b3 (by simp)
      have hrest : ∀ b ∈ rest, b < 256 := fun b hbm => hb b (by simp [hbm])
      have hlen : rest.length ≤ fuel := by
        simp only [List.length_cons] at hl
        omega
      have ihr := ih rest hlen hrest
      have e1 := b64_roundtrip_sextet (b1 / 4) (by omega)
      have e2 := b64_roundtrip_sextet (b1 % 4 * 16 + b2 / 16) (by omega)
      have e3 := b64_roundtrip_sextet (b2 % 16 * 4 + b3 / 64) (by omega)
      have e4 := b64_roundtrip_sextet (b3 % 64) (by omega)
      have ne3 := b64Char_ne_pad (b2 % 16 * 4 + b3 / 64) (by omega)
      have ne4 := b64Char_ne_pad (b3 % 64) (by omega)
      rw [base64Encode, base64Decode, e1, e2]
      simp only []
      rw [if_neg ne3, e3]
      simp only []
      rw [if_neg ne4, e4]
      simp only []
      rw [ihr]
      simp only [Option.map_some', Option.some.injEq, List.cons.injEq, and_true]
      refine ⟨by omega, by omega, by omega⟩

theorem base64_roundtrip (l : List Nat) (h : ∀ b ∈ l, b < 256) :
    base64Decode (base64Encode l) = some l :=
  base64_roundtrip_aux l.length l le_rfl h

theorem generatorWorkingGraph_edges (g w : TopologyGraph)
    (h : generatorWorkingGraph g = some w) : w.edges = g.edges := by
  unfold generatorWorkingGraph at h
  split at h
  · split at h
    · simp at h
    · split at h
      · simp only [Option.some.injEq] at h
        subst h
        rfl
      · simp at h
    · simp only [Option.some.injEq] at h
      subst h
      rfl
  · simp only [Option.some.injEq] at h
    subst h
    rfl

theorem Generate_ok_inv (g work : TopologyGraph) (desc : Descriptor)
    (hgen : Generate g = .ok (work, desc)) :
    generatorWorkingGraph g = some work ∧ desc = generateDescriptor work := by
  unfold Generate at hgen
  split at hgen
  · simp at hgen
  · revert hgen
    cases hw : generatorWorkingGraph g with
    | none => intro hgen; simp at hgen
    | some w =>
      intro hgen
      simp only [Except.ok.injEq, Prod.mk.injEq] at hgen
      obtain ⟨h1, h2⟩ := hgen
      subst h1
      exact ⟨rfl, h2.symm⟩

theorem overlap_false_of_check (c1 c2 : String) (n1 n2 : Cidr)
    (hp1 : parseCidr c1 = some n1) (hp2 : parseCidr c2 = some n2)
    (h : (match parseCidr c1, parseCidr c2 with
          | some a, some b => !cidrOverlap a b
          | _, _ => false) = true) : cidrOverlap n1 n2 = false := by
  rw [hp1, hp2] at h
  simpa using h

theorem scanRefsAux_nil (repl : String → String → String) (fuel : Nat) :
    scanRefsAux repl fuel [] = [] := by
  cases fuel <;> rfl

theorem tryMatch_full (refL propL : List Char)
    (href : refL ≠ [])
    (hrefc : ∀ c ∈ refL, c ≠ '.' ∧ c ≠ '\x7d')
    (hprop : propL ≠ [])
    (hpropc : ∀ c ∈ propL, c ≠ '\x7d') :
    tryMatch ('\x7b' :: '\x7b' :: (refL ++ '.' :: (propL ++ ['\x7d', '\x7d'])))
      = some (String.mk refL, String.mk propL, []) := by
  have hp1 : ∀ c ∈ refL, (!(c == '.') && !(c == '\x7d')) = true := by
    intro c hc
    obtain ⟨h1, h2⟩ := hrefc c hc
    simp [h1, h2]
  have hp2 : ∀ c ∈ propL, (!(c == '\x7d')) = true := by
    intro c hc
    simp [hpropc c hc]
  have t1 : List.takeWhile (fun c => !(c == '.') && !(c == '\x7d'))
      ('.' :: (propL ++ ['\x7d', '\x7d'])) = [] := by
    simp [List.takeWhile_cons]
  have d1 : List.dropWhile (fun c => !(c == '.') && !(c == '\x7d'))
      ('.' :: (propL ++ ['\x7d', '\x7d'])) = '.' :: (propL ++ ['\x7d', '\x7d']) := by
    simp [List.dropWhile_cons]
  have t2 : List.takeWhile (fun c => !(c == '\x7d')) ['\x7d', '\x7d'] = [] := by
    simp [List.takeWhile_cons]
  have d2 : List.dropWhile (fun c => !(c == '\x7d')) ['\x7d', '\x7d']
      = ['\x7d', '\x7d'] := by
    simp [List.dropWhile_cons]
  simp only [tryMatch]
  rw [List.takeWhile_append_of_pos hp1, List.dropWhile_append_of_pos hp1, t1, d1]
  simp only [List.append_nil]
  rw [List.takeWhile_append_of_pos hp2, List.dropWhile_append_of_pos hp2, t2, d2]
  simp [href, hprop]

/-- Resolving a value that is exactly one `\x7b\x7bref.prop\x7d\x7d`
occurrence applies the replacer to the two capture groups. -/
theorem resolveNodeReferences_single_ref (refL propL : List Char)
    (nodes : List BaseNode)
    (outs : Option (List (String × List (String × String))))
    (href : refL ≠ [])
    (hrefc : ∀ c ∈ refL, c ≠ '.' ∧ c ≠ '\x7d')
    (hprop : propL ≠ [])
    (hpropc : ∀ c ∈ propL, c ≠ '\x7d') :
    resolveNodeReferences
      (String.mk ('\x7b' :: '\x7b' :: (refL ++ '.' :: (propL ++ ['\x7d', '\x7d']))))
      nodes outs
      = replaceMatch nodes outs (String.mk refL) (String.mk propL) := by
  have htry := tryMatch_full refL propL href hrefc hprop hpropc
  unfold resolveNodeReferences
  have hlist : (String.mk ('\x7b' :: '\x7b' ::
      (refL ++ '.' :: (propL ++ ['\x7d', '\x7d'])))).toList
      = '\x7b' :: '\x7b' :: (refL ++ '.' :: (propL ++ ['\x7d', '\x7d'])) := rfl
  rw [hlist]
  rw [List.length_cons]
  show String.mk (scanRefsAux _ (_ + 1) _) = _
  rw [scanRefsAux, htry]
  simp only [scanRefsAux_nil, List.append_nil]
  rfl

/-- The character-wise dash-to-underscore map is injective away from
underscores. -/
theorem dashMap_inj : ∀ (l1 l2 : List Char),
    (∀ c ∈ l1, c ≠ '_') → (∀ c ∈ l2, c ≠ '_') →
    l1.map (fun c => if c = '-' then '_' else c)
      = l2.map (fun c => if c = '-' then '_' else c) → l1 = l2 := by
  intro l1
  induction l1 with
  | nil =>
    intro l2 _ _ h
    cases l2 with
    | nil => rfl
    | cons b bs => simp at h
  | cons a as ih =>
    intro l2 h1 h2 h
    cases l2 with
    | nil => simp at h
    | cons b bs =>
      simp only [List.map_cons, List.cons.injEq] at h
      obtain ⟨hhead, htail⟩ := h
      have ha : a ≠ '_' := h1 a (List.mem_cons_self a as)
      have hb : b ≠ '_' := h2 b (List.mem_cons_self b bs)
      have hab : a = b := by
        by_cases ca : a = '-' <;> by_cases cb : b = '-' <;>
          simp [ca, cb] at hhead ⊢ <;> first
          | (exact ca.trans cb.symm)
          | (exact absurd hhead.symm hb)
          | (exact absurd hhead ha)
          | exact hhead
      subst hab
      have := ih bs (fun c hc => h1 c (List.mem_cons_of_mem a hc))
        (fun c hc => h2 c (List.mem_cons_of_mem a hc)) htail
      rw [this]

end TopNet

namespace TopNet

/-- C10: `convertToReactFlowEdges` returns exactly one output edge per
input edge, in the same order, with the output `id`/`source`/`target`
equal to the input `id`/`from`/`to`, and `animated` set to `true` exactly
when the input edge's kind is `allowed_traffic`. -/
theorem convertToReactFlowEdges_faithful (topology : TopologyGraph) :
    (convertToReactFlowEdges topology).length = topology.edges.length ∧
    List.Forall₂
      (fun (e : Edge) (o : ReactFlowEdge) =>
        o.id = e.id ∧ o.source = e.«from» ∧ o.target = e.«to» ∧
        (o.animated = true ↔ e.kind = .allowed_traffic))
      topology.edges (convertToReactFlowEdges topology) := by
  constructor
  · simp [convertToReactFlowEdges]
  · unfold convertToReactFlowEdges
    induction topology.edges with
    | nil => simp
    | cons e es ih =>
      refine List.Forall₂.cons ?_ ih
      refine ⟨rfl, rfl, rfl, ?_⟩
      by_cases h : e.kind = EdgeKind.allowed_traffic <;> simp [h]

/-- C5 counterexample: resolving a value that references the node
`missing`, absent from the node list, does not fail: the reference is
replaced by the placeholder interpolation `$\x7bmissing.endpoint\x7d`
(the claim demands a fatal error and forbids placeholder
substitution). -/
theorem resolveNodeReferences_dangling_cex :
    resolveNodeReferences "\x7b\x7bmissing.endpoint\x7d\x7d" [] none
      = "$\x7bmissing.endpoint\x7d" := by decide

/-- C5 (amended): when a node reference in a value does not resolve to
any node in the list, `resolveNodeReferences` does not fail: it
substitutes the interpolation placeholder `$\x7bref.prop\x7d`,
preserving the dangling reference text for runtime resolution rather
than dropping it. -/
theorem resolveNodeReferences_dangling_placeholder (refL propL : List Char)
    (nodes : List BaseNode)
    (href : refL ≠ [])
    (hrefc : ∀ c ∈ refL, c ≠ '.' ∧ c ≠ '\x7d')
    (hprop : propL ≠ [])
    (hpropc : ∀ c ∈ propL, c ≠ '\x7d')
    (hfind : findNode nodes (String.mk refL) = none) :
    resolveNodeReferences
      (String.mk ('\x7b' :: '\x7b' :: (refL ++ '.' :: (propL ++ ['\x7d', '\x7d']))))
      nodes none
      = "$\x7b" ++ String.mk refL ++ "." ++ String.mk propL ++ "\x7d" := by
  rw [resolveNodeReferences_single_ref refL propL nodes none href hrefc hprop hpropc]
  unfold replaceMatch
  rw [hfind]

/-- C5 witness: the amended statement at the concrete dangling reference
`\x7b\x7borphan.port\x7d\x7d` over an empty node list. -/
theorem resolveNodeReferences_dangling_placeholder_witness :
    findNode [] (String.mk "orphan".toList) = none ∧
    resolveNodeReferences
      (String.mk ('\x7b' :: '\x7b' :: ("orphan".toList ++ '.' ::
        ("port".toList ++ ['\x7d', '\x7d'])))) [] none
      = "$\x7b" ++ String.mk "orphan".toList ++ "." ++ String.mk "port".toList ++ "\x7d" :=
  ⟨by decide,
    resolveNodeReferences_dangling_placeholder "orphan".toList "port".toList []
      (by decide) (by decide) (by decide) (by decide) (by decide)⟩

/-- C6: an attribute value referencing a node present in the graph, for
the kind/property combinations the resolver understands (database
endpoint/port/address, compute instance private/public IP, load balancer
DNS name), is rendered as the interpolation expression
`$\x7b<resource_type>.<sanitized_name>.<attribute>\x7d`, never as the
literal node id. -/
theorem resolveNodeReferences_renders_interpolation (refL propL : List Char)
    (nodes : List BaseNode) (node : BaseNode) (rtype : String)
    (href : refL ≠ [])
    (hrefc : ∀ c ∈ refL, c ≠ '.' ∧ c ≠ '\x7d')
    (hprop : propL ≠ [])
    (hpropc : ∀ c ∈ propL, c ≠ '\x7d')
    (hfind : findNode nodes (String.mk refL) = some node)
    (hcombo :
      (node.kind = .database ∧ rtype = "aws_db_instance" ∧
        (String.mk propL = "endpoint" ∨ String.mk propL = "port" ∨
          String.mk propL = "address")) ∨
      (node.kind = .compute_instance ∧ rtype = "aws_instance" ∧
        (String.mk propL = "private_ip" ∨ String.mk propL = "public_ip")) ∨
      (node.kind = .load_balancer ∧ rtype = "aws_lb" ∧
        String.mk propL = "dns_name")) :
    resolveNodeReferences
      (String.mk ('\x7b' :: '\x7b' :: (refL ++ '.' :: (propL ++ ['\x7d', '\x7d']))))
      nodes none
      = "$\x7b" ++ rtype ++ "." ++ sanitizeName node.id ++ "." ++
          String.mk propL ++ "\x7d" := by
  rw [resolveNodeReferences_single_ref refL propL nodes none href hrefc hprop hpropc]
  rcases hcombo with ⟨hk, hr, hp | hp | hp⟩ | ⟨hk, hr, hp | hp⟩ | ⟨hk, hr, hp⟩ <;>
    subst hr <;> rw [hp] <;>
    simp only [replaceMatch, hfind, hk] <;> apply String.ext <;>
    simp [String.data_append]

/-- C6 witness: a database node `db-1` whose `endpoint` is referenced;
the rendered value is `$\x7baws_db_instance.db_1.endpoint\x7d`. -/
theorem resolveNodeReferences_renders_interpolation_witness :
    findNode [{ id := "db-1", kind := .database }] (String.mk "db-1".toList)
      = some { id := "db-1", kind := .database } ∧
    resolveNodeReferences
      (String.mk ('\x7b' :: '\x7b' :: ("db-1".toList ++ '.' ::
        ("endpoint".toList ++ ['\x7d', '\x7d']))))
      [{ id := "db-1", kind := .database }] none
      = "$\x7b" ++ "aws_db_instance" ++ "." ++
          sanitizeName (BaseNode.id { id := "db-1", kind := .database }) ++ "." ++
          String.mk "endpoint".toList ++ "\x7d" :=
  ⟨by decide,
    resolveNodeReferences_renders_interpolation "db-1".toList "endpoint".toList
      [{ id := "db-1", kind := .database }] { id := "db-1", kind := .database }
      "aws_db_instance" (by decide) (by decide) (by decide) (by decide) (by decide)
      (Or.inl ⟨rfl, rfl, Or.inl rfl⟩)⟩

/-- C7 counterexample: the sanitization transform is not
collision-resistant — the distinct node ids `subnet-1` and `subnet_1`
sanitize to the same resource name. -/
theorem sanitizeName_collision_cex :
    sanitizeName "subnet-1" = sanitizeName "subnet_1" ∧
      "subnet-1" ≠ "subnet_1" := by decide

/-- C7 (amended): the sanitization transform is a pure, deterministic
function (the same node id always sanitizes to the same name), and it is
injective on node ids that contain no underscore; but two distinct ids
that differ only by `-` versus `_` collide. -/
theorem sanitizeName_inj_on_underscore_free (s t : String)
    (hs : '_' ∉ s.toList) (ht : '_' ∉ t.toList)
    (h : sanitizeName s = sanitizeName t) : s = t := by
  have hdata : s.toList.map (fun c => if c = '-' then '_' else c)
      = t.toList.map (fun c => if c = '-' then '_' else c) := by
    have := congrArg String.data h
    simpa [sanitizeName] using this
  have : s.toList = t.toList :=
    dashMap_inj s.toList t.toList
      (fun c hc => by rintro rfl; exact hs hc)
      (fun c hc => by rintro rfl; exact ht hc) hdata
  apply String.ext
  simpa using this

/-- C7 witness: the amended injectivity statement at the concrete
underscore-free ids `web-1` and `web-1`. -/
theorem sanitizeName_inj_on_underscore_free_witness :
    ('_' ∉ "web-1".toList) ∧ "web-1" = "web-1" :=
  ⟨by decide,
    sanitizeName_inj_on_underscore_free "web-1" "web-1" (by decide) (by decide) rfl⟩

/-- C8: on a graph whose only network owns exactly two subnets whose
CIDR blocks are set to the same (parseable) value, the CIDR-overlap pass
returns exactly one finding; it has severity `error` and names both
subnet ids. -/
theorem cidrOverlapPass_equal_pair (g : TopologyGraph) (net s1 s2 : BaseNode)
    (c : String) (cc : Cidr)
    (hnet : g.nodes.filter (fun n => n.kind == .network) = [net])
    (hsubs : ownedSubnets g net = [s1, s2])
    (h1 : lookupProp s1 "cidr_block" = some c)
    (h2 : lookupProp s2 "cidr_block" = some c)
    (hparse : parseCidr c = some cc) :
    cidrOverlapPass g =
      [{ id := "cidr-overlap-" ++ s1.id ++ "-" ++ s2.id,
         severity := .error,
         message := "CIDR overlap between subnets " ++ s1.id ++ " and " ++ s2.id,
         nodeIds := some [s1.id, s2.id] }] := by
  unfold cidrOverlapPass
  rw [hnet]
  simp [hsubs, distinctPairs, h1, h2, hparse, cidrOverlap_self]

/-- C8 witness: the two-subnet `overlapGraph` with both subnets set to
`10.0.1.0/24` yields exactly the one error finding naming `sub-a` and
`sub-b`. -/
theorem cidrOverlapPass_equal_pair_witness :
    ownedSubnets overlapGraph overlapNet = [overlapSubA, overlapSubB] ∧
    cidrOverlapPass overlapGraph =
      [{ id := "cidr-overlap-" ++ overlapSubA.id ++ "-" ++ overlapSubB.id,
         severity := .error,
         message := "CIDR overlap between subnets " ++ overlapSubA.id ++
           " and " ++ overlapSubB.id,
         nodeIds := some [overlapSubA.id, overlapSubB.id] }] :=
  ⟨by decide,
    cidrOverlapPass_equal_pair overlapGraph overlapNet overlapSubA overlapSubB
      "10.0.1.0/24" ⟨10, 0, 1, 0, 24⟩ (by decide) (by decide) (by decide)
      (by decide) (by decide)⟩


/-- C4: a spec whose component descriptions contain no tier-signaling
keyword classifies as Tier 1, and the built graph is a Tier 1 graph:
every node that carries an availability zone lies in the single zone
`<region>a`, there is no NAT gateway, and no load balancer. -/
theorem Build_tier1_default (spec : TopologySpec) (g : TopologyGraph)
    (hkw : ∀ kw ∈ tier2Keywords ++ tier1Keywords,
      containsKeyword (userText spec) kw = false)
    (hbuild : Build spec = .ok g) :
    detectComplexityTier spec = 1 ∧
    ∀ n ∈ g.nodes,
      (∀ z, n.az = some z → z = spec.region ++ "a") ∧
      ¬(n.kind = .gateway ∧ lookupProp n "gateway_type" = some "nat") ∧
      n.kind ≠ .load_balancer := by
  have htier : detectComplexityTier spec = 1 :=
    detect_tier_no_keywords spec (fun kw h => hkw kw (List.mem_append_left _ h))
  refine ⟨htier, ?_⟩
  unfold Build at hbuild
  split at hbuild
  · simp at hbuild
  · split at hbuild
    · simp at hbuild
    · simp only [Except.ok.injEq, htier] at hbuild
      subst hbuild
      intro n hn
      simp only [show ((1 : Nat) = 2) = False by simp, if_false,
        List.append_nil, List.nil_append] at hn
      simp only [List.mem_append, List.mem_cons, List.not_mem_nil, or_false] at hn
      have hsubaz : ∀ s ∈ allocSubnets spec.region (subnetPlan spec 1) 0,
          ∀ z, s.az = some z → z = spec.region ++ "a" := by
        intro s hs z h
        obtain ⟨-, e, he, hz⟩ := allocSubnets_mem _ _ _ _ hs
        obtain ⟨hzone, -⟩ := subnetPlan_tier1_mem spec e he
        rw [hz] at h
        injection h with h2
        rw [← h2]
        exact hzone
      rcases hn with ((((((rfl | hsub) | rfl) | rfl) | hsg | hsg) | hcomp) | hdb) | htg
      · simp [vpcNode, lookupProp]
      · obtain ⟨hk, e, he, hz⟩ := allocSubnets_mem _ _ _ _ hsub
        obtain ⟨hzone, -⟩ := subnetPlan_tier1_mem spec e he
        refine ⟨?_, by rw [hk]; simp, by rw [hk]; simp⟩
        intro z h
        rw [hz] at h
        injection h with h2
        rw [← h2]
        exact hzone
      · simp [internetGateway, lookupProp]
      · simp [routeTablePublic, lookupProp]
      · have := mem_ite_singleton hsg
        subst this
        simp [webSecurityGroup, lookupProp]
      · have := mem_ite_singleton hsg
        subst this
        simp [dbSecurityGroup, lookupProp]
      · obtain ⟨hk, haz⟩ := mkComputeNodes_mem _ _ _ hcomp
        refine ⟨?_, by rw [hk]; simp, by rw [hk]; simp⟩
        intro z h
        rcases haz with h0 | ⟨s, hs, hsaz⟩
        · rw [h0] at h
          cases h
        · rw [hsaz] at h
          exact hsubaz s (List.mem_of_mem_filter hs) z h
      · obtain ⟨hk, haz⟩ := mkDatabaseNodes_mem _ _ _ hdb
        refine ⟨?_, by rw [hk]; simp, by rw [hk]; simp⟩
        intro z h
        rcases haz with h0 | ⟨s, hs, hsaz⟩
        · rw [h0] at h
          cases h
        · rw [hsaz] at h
          exact hsubaz s (dbSubnetPool_subset _ _ hs) z h
      · obtain ⟨hk, haz⟩ := mkTrafficGenNodes_mem _ _ htg
        refine ⟨?_, by rw [hk]; simp, by rw [hk]; simp⟩
        intro z h
        rw [haz] at h
        cases h


/-- C4 witness: the minimal keyword-free web+db spec classifies as
Tier 1 and builds a single-zone graph with no NAT gateway and no load
balancer. -/
theorem Build_tier1_default_witness :
    (∀ kw ∈ tier2Keywords ++ tier1Keywords,
      containsKeyword (userText tier1DemoSpec) kw = false) ∧
    (detectComplexityTier tier1DemoSpec = 1 ∧
      ∀ n ∈ (buildOrEmpty tier1DemoSpec).nodes,
        (∀ z, n.az = some z → z = tier1DemoSpec.region ++ "a") ∧
        ¬(n.kind = .gateway ∧ lookupProp n "gateway_type" = some "nat") ∧
        n.kind ≠ .load_balancer) :=
  ⟨by decide,
    Build_tier1_default tier1DemoSpec (buildOrEmpty tier1DemoSpec)
      (by decide) rfl⟩

/-- C1: in every graph `Build` produces, two distinct subnet nodes owned
by the same network node carry non-overlapping CIDR blocks — each subnet
consumed a distinct `/24` from the monotonic per-graph counter, and
distinct `10.0.<k>.0/24` blocks are disjoint. -/
theorem Build_cidr_non_overlap (spec : TopologySpec) (g : TopologyGraph)
    (hbuild : Build spec = .ok g)
    (net s1 s2 : BaseNode)
    (h1 : s1 ∈ ownedSubnets g net) (h2 : s2 ∈ ownedSubnets g net)
    (hne : s1.id ≠ s2.id)
    (c1 c2 : String) (n1 n2 : Cidr)
    (hc1 : lookupProp s1 "cidr_block" = some c1)
    (hc2 : lookupProp s2 "cidr_block" = some c2)
    (hp1 : parseCidr c1 = some n1) (hp2 : parseCidr c2 = some n2) :
    cidrOverlap n1 n2 = false := by
  unfold ownedSubnets at h1 h2
  obtain ⟨hmem1, hpred1⟩ := List.mem_filter.mp h1
  obtain ⟨hmem2, hpred2⟩ := List.mem_filter.mp h2
  simp only [Bool.and_eq_true, beq_iff_eq] at hpred1 hpred2
  have ks1 : s1.kind = .subnet := hpred1.1
  have ks2 : s2.kind = .subnet := hpred2.1
  unfold Build at hbuild
  split at hbuild
  · simp at hbuild
  · split at hbuild
    · simp at hbuild
    · simp only [Except.ok.injEq] at hbuild
      subst hbuild
      simp only [List.mem_append, List.mem_cons, List.not_mem_nil, or_false] at hmem1 hmem2
      have hs1 : s1 ∈ allocSubnets spec.region
          (subnetPlan spec (detectComplexityTier spec)) 0 := by
        rcases hmem1 with
          (((((((rfl | h) | (rfl | hg)) | (rfl | hg)) | (hg | hg)) | hg) | h) | h) | h
        · simp [vpcNode] at ks1
        · exact h
        · simp [internetGateway] at ks1
        · have := mem_ite_singleton hg; subst this; simp [natGateway] at ks1
        · simp [routeTablePublic] at ks1
        · have := mem_ite_singleton hg; subst this; simp [routeTablePrivate] at ks1
        · have := mem_ite_singleton hg; subst this; simp [webSecurityGroup] at ks1
        · have := mem_ite_singleton hg; subst this; simp [dbSecurityGroup] at ks1
        · have := mem_ite_singleton hg; subst this; simp [loadBalancerNode] at ks1
        · rw [(mkComputeNodes_mem _ _ _ h).1] at ks1; cases ks1
        · rw [(mkDatabaseNodes_mem _ _ _ h).1] at ks1; cases ks1
        · rw [(mkTrafficGenNodes_mem _ _ h).1] at ks1; cases ks1
      have hs2 : s2 ∈ allocSubnets spec.region
          (subnetPlan spec (detectComplexityTier spec)) 0 := by
        rcases hmem2 with
          (((((((rfl | h) | (rfl | hg)) | (rfl | hg)) | (hg | hg)) | hg) | h) | h) | h
        · simp [vpcNode] at ks2
        · exact h
        · simp [internetGateway] at ks2
        · have := mem_ite_singleton hg; subst this; simp [natGateway] at ks2
        · simp [routeTablePublic] at ks2
        · have := mem_ite_singleton hg; subst this; simp [routeTablePrivate] at ks2
        · have := mem_ite_singleton hg; subst this; simp [webSecurityGroup] at ks2
        · have := mem_ite_singleton hg; subst this; simp [dbSecurityGroup] at ks2
        · have := mem_ite_singleton hg; subst this; simp [loadBalancerNode] at ks2
        · rw [(mkComputeNodes_mem _ _ _ h).1] at ks2; cases ks2
        · rw [(mkDatabaseNodes_mem _ _ _ h).1] at ks2; cases ks2
        · rw [(mkTrafficGenNodes_mem _ _ h).1] at ks2; cases ks2
      obtain ⟨i, hi, hid1, hcid1⟩ := allocSubnets_char _ _ _ _ hs1
      obtain ⟨j, hj, hid2, hcid2⟩ := allocSubnets_char _ _ _ _ hs2
      have hi4 : i < 4 := lt_of_lt_of_le hi (subnetPlan_length _ _)
      have hj4 : j < 4 := lt_of_lt_of_le hj (subnetPlan_length _ _)
      by_cases hij : i = j
      · subst hij
        exact absurd (hid1.trans hid2.symm) hne
      · rw [hc1] at hcid1
        rw [hc2] at hcid2
        injection hcid1 with e1
        injection hcid2 with e2
        subst e1
        subst e2
        interval_cases i <;> interval_cases j <;>
          first
          | exact absurd rfl hij
          | exact overlap_false_of_check _ _ _ _ hp1 hp2 (by decide)

/-- C1 witness: in the graph built from the keyword-free web+db spec,
the two subnets under `vpc-main` have non-overlapping blocks
`10.0.0.0/24` and `10.0.1.0/24`. -/
theorem Build_cidr_non_overlap_witness :
    Build tier1DemoSpec = .ok (buildOrEmpty tier1DemoSpec) ∧
    demoSubnetWeb ∈ ownedSubnets (buildOrEmpty tier1DemoSpec) (vpcNode "us-east-2") ∧
    demoSubnetDb ∈ ownedSubnets (buildOrEmpty tier1DemoSpec) (vpcNode "us-east-2") ∧
    cidrOverlap ⟨10, 0, 0, 0, 24⟩ ⟨10, 0, 1, 0, 24⟩ = false :=
  ⟨rfl, by decide, by decide,
    Build_cidr_non_overlap tier1DemoSpec (buildOrEmpty tier1DemoSpec) rfl
      (vpcNode "us-east-2") demoSubnetWeb demoSubnetDb (by decide) (by decide)
      (by decide) "10.0.0.0/24" "10.0.1.0/24" ⟨10, 0, 0, 0, 24⟩ ⟨10, 0, 1, 0, 24⟩
      (by decide) (by decide) (by decide) (by decide)⟩



/-- C2: when `Generate` must synthesize the second database subnet (a
database present, exactly one eligible subnet), the working copy it
returns extends the caller's node list by exactly one synthesized
subnet, in a different availability zone, with a CIDR not already used
in the graph; the edges — and, `Generate` being a pure function of the
graph value, the caller's graph itself — are unchanged. -/
theorem Generate_rds_synthesis (g work : TopologyGraph) (desc : Descriptor)
    (orig : BaseNode) (cidr : String)
    (hdb : g.nodes.any (fun n => n.kind == .database) = true)
    (helig : eligibleDbSubnets g = [orig])
    (hcidr : nextUnusedCidr g = some cidr)
    (hgen : Generate g = .ok (work, desc)) :
    work.nodes = g.nodes ++ [synthSubnet orig cidr] ∧
    work.edges = g.edges ∧
    (synthSubnet orig cidr).az ≠ orig.az ∧
    cidr ∉ usedCidrs g := by
  have hwork : generatorWorkingGraph g
      = some { g with nodes := g.nodes ++ [synthSubnet orig cidr] } := by
    unfold generatorWorkingGraph
    rw [hdb, helig, hcidr]
    simp
  obtain ⟨hw', -⟩ := Generate_ok_inv g work desc hgen
  rw [hwork] at hw'
  simp only [Option.some.injEq] at hw'
  subst hw'
  refine ⟨rfl, rfl, ?_, ?_⟩
  · cases haz : orig.az with
    | none => simp [synthSubnet]
    | some z =>
      simp only [synthSubnet, haz, Option.getD_some, ne_eq, Option.some.injEq]
      exact zoneOffset_ne z
  · obtain ⟨k, hk, hck⟩ := Option.map_eq_some'.mp hcidr
    have hp := List.find?_some hk
    subst hck
    simp only [Bool.not_eq_true'] at hp
    intro hmem
    have hcontains : (usedCidrs g).contains (nextSubnetCidr k).1 = true := by
      simp only [List.contains_eq_any_beq, List.any_eq_true]
      exact ⟨_, hmem, by simp⟩
    rw [hp] at hcontains
    cases hcontains

/-- C2 witness: the database-plus-one-subnet graph: the working copy
gains exactly the synthesized subnet `subnet-main-az2` in zone
`us-east-2b` with the unused CIDR `10.0.1.0/24`. -/
theorem Generate_rds_synthesis_witness :
    rdsDemoGraph.nodes.any (fun n => n.kind == .database) = true ∧
    eligibleDbSubnets rdsDemoGraph = [rdsDemoSubnet] ∧
    nextUnusedCidr rdsDemoGraph = some "10.0.1.0/24" ∧
    ((generateResult rdsDemoGraph).1.nodes
        = rdsDemoGraph.nodes ++ [synthSubnet rdsDemoSubnet "10.0.1.0/24"] ∧
      (generateResult rdsDemoGraph).1.edges = rdsDemoGraph.edges ∧
      (synthSubnet rdsDemoSubnet "10.0.1.0/24").az ≠ rdsDemoSubnet.az ∧
      "10.0.1.0/24" ∉ usedCidrs rdsDemoGraph) :=
  ⟨by decide, by decide, by decide,
    Generate_rds_synthesis rdsDemoGraph (generateResult rdsDemoGraph).1
      (generateResult rdsDemoGraph).2 rdsDemoSubnet "10.0.1.0/24"
      (by decide) (by decide) (by decide) rfl⟩

/-- C3: a successful `Generate` emits no inline ingress/egress attribute
on any security-group resource, and the standalone rule bucket contains
exactly one rule resource per `allowed_traffic` edge of the input graph,
in order, each referencing the two group resources by id. -/
theorem Generate_rule_decomposition (g work : TopologyGraph) (desc : Descriptor)
    (hgen : Generate g = .ok (work, desc)) :
    (∀ bucket ∈ desc, bucket.1 = "aws_security_group" →
      ∀ r ∈ bucket.2, ∀ kv ∈ r.2, kv.1 ≠ "ingress" ∧ kv.1 ≠ "egress") ∧
    (∀ bucket ∈ desc, bucket.1 = "aws_security_group_rule" →
      List.Forall₂ (fun (e : Edge) (r : String × AttrMap) =>
          r.1 = sanitizeName e.id ∧
          r.2.lookup "security_group_id" = some (sgRef e.«to») ∧
          r.2.lookup "source_security_group_id" = some (sgRef e.«from»))
        (g.edges.filter (fun e => e.kind == .allowed_traffic)) bucket.2) := by
  obtain ⟨hw, hdesc⟩ := Generate_ok_inv g work desc hgen
  have hedge : work.edges = g.edges := generatorWorkingGraph_edges g work hw
  subst hdesc
  unfold generateDescriptor
  constructor
  · intro bucket hb hname r hr kv hkv
    simp only [List.mem_cons, List.not_mem_nil, or_false] at hb
    rcases hb with rfl | rfl | rfl | rfl
    · simp at hname
    · simp at hname
    · rw [List.mem_map] at hr
      obtain ⟨n, -, hn⟩ := hr
      subst hn
      simp only [List.mem_cons, List.not_mem_nil, or_false] at hkv
      rcases hkv with rfl | rfl | rfl <;> exact ⟨by simp, by simp⟩
    · simp at hname
  · intro bucket hb hname
    simp only [List.mem_cons, List.not_mem_nil, or_false] at hb
    rcases hb with rfl | rfl | rfl | rfl
    · simp at hname
    · simp at hname
    · simp at hname
    · rw [hedge, List.forall₂_map_right_iff, List.forall₂_same]
      intro e he
      exact ⟨rfl, by simp [List.lookup], by simp [List.lookup]⟩

/-- C3 witness: on the two-group one-permission graph the descriptor's
group bucket has no inline rule attributes and the rule bucket holds the
one standalone rule referencing both groups. -/
theorem Generate_rule_decomposition_witness :
    (∀ bucket ∈ (generateResult sgDemoGraph).2, bucket.1 = "aws_security_group" →
      ∀ r ∈ bucket.2, ∀ kv ∈ r.2, kv.1 ≠ "ingress" ∧ kv.1 ≠ "egress") ∧
    (∀ bucket ∈ (generateResult sgDemoGraph).2,
      bucket.1 = "aws_security_group_rule" →
      List.Forall₂ (fun (e : Edge) (r : String × AttrMap) =>
          r.1 = sanitizeName e.id ∧
          r.2.lookup "security_group_id" = some (sgRef e.«to») ∧
          r.2.lookup "source_security_group_id" = some (sgRef e.«from»))
        (sgDemoGraph.edges.filter (fun e => e.kind == .allowed_traffic))
        bucket.2) :=
  Generate_rule_decomposition sgDemoGraph (generateResult sgDemoGraph).1
    (generateResult sgDemoGraph).2 rfl


/-- C9: decoding the output of `encodeUserDataForTerraform` as base64
yields exactly the UTF-8 byte encoding of the input script — the
encoding round-trips losslessly for every input string. -/
theorem encodeUserDataForTerraform_roundtrip (script : String) :
    base64Decode (encodeUserDataForTerraform script).toList
      = some (utf8Encode script) := by
  have hb : ∀ b ∈ utf8Encode script, b < 256 := by
    intro b hbm
    rw [utf8Encode, List.mem_flatMap] at hbm
    obtain ⟨c, -, hc⟩ := hbm
    exact utf8EncodeChar_lt c b hc
  exact base64_roundtrip (utf8Encode script) hb

end TopNet
